import Mathlib

/-!
Verification of the riding-conditions scoring engine and its numeric support
helpers (geodesic distance, distance formatting, weather-code classification)
of the where-am-i travel companion application, as a shallow embedding.

Numbers carried by weather readings are embedded as rationals; the running
score is an integer (the source only ever subtracts integer constants from
the initial 100).  The imperative accumulation of score, alerts and
recommendations is embedded as explicit state passing through one step
function per factor, in source order: temperature, wind, precipitation,
weather code, forecast lookahead.
-/

/-- Rider suitability category (field of the RidingConditions output type). -/
inductive Suitability where
  | excellent
  | good
  | fair
  | poor
  | dangerous
deriving DecidableEq, Repr

/-- Hourly forecast series of a WeatherInfo value (parallel sequences). -/
structure HourlyForecast where
  time : List String
  temperature : List ℚ
  precipitation : List ℚ
  precipitationProbability : List ℚ
  weatherCode : List ℤ
  windSpeed : List ℚ
deriving DecidableEq, Repr

/-- Daily forecast series of a WeatherInfo value (parallel sequences). -/
structure DailyForecast where
  time : List String
  temperatureMax : List ℚ
  temperatureMin : List ℚ
  precipitationSum : List ℚ
  precipitationProbabilityMax : List ℚ
  weatherCode : List ℤ
  windSpeedMax : List ℚ
deriving DecidableEq, Repr

/-- The WeatherInfo input record of the scorer; absent numeric fields are
encoded with Option, matching the optional fields of the source type. -/
structure WeatherInfo where
  temperatureC : Option ℚ
  windSpeed : Option ℚ
  precipitation : Option ℚ
  precipitationProbability : Option ℚ
  weatherCode : Option ℤ
  hourlyForecast : Option HourlyForecast
  dailyForecast : Option DailyForecast
deriving DecidableEq, Repr

/-- Output record of the scorer. -/
structure RidingConditions where
  score : ℤ
  suitability : Suitability
  alerts : List String
  recommendations : List String
deriving DecidableEq, Repr

/-- Running state of the scorer: the mutable score, alerts and
recommendations variables of the source, passed explicitly. -/
structure ScoreState where
  score : ℤ
  alerts : List String
  recommendations : List String
deriving DecidableEq, Repr

/-- JavaScript Math.max over a spread list; the empty case yields none
(-Infinity in the source), which never exceeds a finite threshold. -/
def jsMax : List ℚ → Option ℚ
  | [] => none
  | x :: xs => some (xs.foldl max x)

/-- Temperature factor: mutually exclusive bands, most severe first. -/
def tempStep (temp : ℚ) (s : ScoreState) : ScoreState :=
  if temp < 5 then
    ⟨s.score - 40, s.alerts ++ ["Very cold - risk of frostbite"],
      s.recommendations ++ ["Wear thermal gear, consider heated grips"]⟩
  else if temp < 10 then
    ⟨s.score - 20, s.alerts ++ ["Cold weather"],
      s.recommendations ++ ["Wear warm layers"]⟩
  else if temp > 30 then
    ⟨s.score - 30, s.alerts ++ ["Very hot - risk of heat exhaustion"],
      s.recommendations ++ ["Stay hydrated, wear light clothing"]⟩
  else if temp > 25 then
    ⟨s.score - 15, s.alerts ++ ["Hot weather"],
      s.recommendations ++ ["Drink water regularly"]⟩
  else s

/-- Wind factor: mutually exclusive bands, most severe first. -/
def windStep (windSpeed : ℚ) (s : ScoreState) : ScoreState :=
  if windSpeed > 15 then
    ⟨s.score - 50, s.alerts ++ ["Very windy - dangerous riding conditions"],
      s.recommendations ++ ["Avoid riding if possible, use extreme caution"]⟩
  else if windSpeed > 10 then
    ⟨s.score - 30, s.alerts ++ ["Strong winds"],
      s.recommendations ++ ["Lean into wind, reduce speed"]⟩
  else if windSpeed > 5 then
    ⟨s.score - 10, s.alerts ++ ["Moderate winds"],
      s.recommendations ++ ["Be cautious on exposed roads"]⟩
  else s

/-- Precipitation factor: combines measured precipitation and probability. -/
def precipStep (currentPrecip precipProb : ℚ) (s : ScoreState) : ScoreState :=
  if currentPrecip > 5 ∨ precipProb > 80 then
    ⟨s.score - 60, s.alerts ++ ["Heavy rain - extremely dangerous"],
      s.recommendations ++ ["Do not ride, seek shelter"]⟩
  else if currentPrecip > 1 ∨ precipProb > 60 then
    ⟨s.score - 40, s.alerts ++ ["Rain expected"],
      s.recommendations ++
        ["Wear waterproof gear, reduce speed, increase following distance"]⟩
  else if precipProb > 30 then
    ⟨s.score - 20, s.alerts ++ ["Possible rain"],
      s.recommendations ++ ["Check weather frequently, be prepared for rain"]⟩
  else s

/-- Weather-code factor: severe-weather code groups, most severe first. -/
def codeStep (weatherCode : ℤ) (s : ScoreState) : ScoreState :=
  if weatherCode ∈ [95, 96, 99] then
    ⟨s.score - 70, s.alerts ++ ["Thunderstorm - extremely dangerous"],
      s.recommendations ++ ["Do not ride, seek shelter immediately"]⟩
  else if weatherCode ∈ [71, 73, 75, 77] then
    ⟨s.score - 50, s.alerts ++ ["Snow/ice conditions"],
      s.recommendations ++ ["Do not ride, roads may be icy"]⟩
  else if weatherCode ∈ [45, 48] then
    ⟨s.score - 15, s.alerts ++ ["Foggy conditions"],
      s.recommendations ++
        ["Use headlights, reduce speed, increase following distance"]⟩
  else s

/-- Near-term forecast lookahead: first 6 hourly precipitation-probability
entries; a maximum above 70 deducts a further 25 points. -/
def lookaheadStep (hourly : Option HourlyForecast) (s : ScoreState) : ScoreState :=
  match hourly with
  | none => s
  | some hf =>
    match jsMax (hf.precipitationProbability.take 6) with
    | none => s
    | some maxPrecipProb =>
      if maxPrecipProb > 70 then
        ⟨s.score - 25, s.alerts ++ ["Rain likely in next few hours"],
          s.recommendations ++ ["Plan route to avoid bad weather"]⟩
      else s

/-- The claim-side trigger condition of the lookahead step: the maximum of
the first 6 hourly precipitation-probability entries exceeds 70. -/
def lookaheadFires (hf : HourlyForecast) : Bool :=
  match jsMax (hf.precipitationProbability.take 6) with
  | none => false
  | some m => decide (m > 70)

/-- Score-to-suitability thresholds, evaluated highest-first. -/
def suitabilityFromScore (score : ℤ) : Suitability :=
  if score ≥ 80 then .excellent
  else if score ≥ 60 then .good
  else if score ≥ 40 then .fair
  else if score ≥ 20 then .poor
  else .dangerous

/-- The four mutually exclusive factor steps of the scorer, in source order,
starting from the perfect state (score 100, no alerts, no recommendations);
absent fields take the source defaults (temperature 20, others 0). -/
def baseSteps (weather : WeatherInfo) : ScoreState :=
  codeStep (weather.weatherCode.getD 0)
    (precipStep (weather.precipitation.getD 0)
      (weather.precipitationProbability.getD 0)
      (windStep (weather.windSpeed.getD 0)
        (tempStep (weather.temperatureC.getD 20) ⟨100, [], []⟩)))

/-- The riding-conditions scorer: factor steps, lookahead step, suitability
from the pre-clamp score, then the clamp of the score to a minimum of 0. -/
def calculateRidingConditions (weather : WeatherInfo) : RidingConditions :=
  let s := lookaheadStep weather.hourlyForecast (baseSteps weather)
  ⟨max 0 s.score, suitabilityFromScore s.score, s.alerts, s.recommendations⟩

/-- Concrete scenario B reading: temperature 2, wind 20, precipitation 8,
precipitation probability 90, weather code 96, no forecasts. -/
def scenarioB : WeatherInfo :=
  ⟨some 2, some 20, some 8, some 90, some 96, none, none⟩

/-- Hourly series of concrete scenario D: precipitation probabilities
75, 10, 10, 10, 10, 10, other parallel sequences empty. -/
def scenarioDHourly : HourlyForecast :=
  ⟨[], [], [], [75, 10, 10, 10, 10, 10], [], []⟩

/-- Concrete scenario D reading: every current field absent, only the hourly
forecast present. -/
def scenarioD : WeatherInfo :=
  ⟨none, none, none, none, none, some scenarioDHourly, none⟩

/-- A reading that fixes every field other than wind speed at the neutral
defaults (temperature absent, hence 20; precipitation, probability and code
absent, hence 0; no forecasts). -/
def windOnly (w : ℚ) : WeatherInfo :=
  ⟨none, some w, none, none, none, none, none⟩

/-- A concrete reading with hourly and no daily forecast. -/
def probeReadingLeft : WeatherInfo :=
  ⟨some 12, some 3, some 0, some 10, some 1,
    some ⟨["t0"], [1], [0], [10, 20, 30, 40, 50, 60], [1], [2]⟩,
    none⟩

/-- A reading agreeing with probeReadingLeft on everything the scorer reads,
but with different hourly time, temperature, precipitation, code and wind
sequences, extra precipitation-probability entries past offset 5, and a
daily forecast. -/
def probeReadingRight : WeatherInfo :=
  ⟨some 12, some 3, some 0, some 10, some 1,
    some ⟨["t1", "t2"], [5], [2], [10, 20, 30, 40, 50, 60, 95, 99], [3], [7]⟩,
    some ⟨["d0"], [1], [0], [1], [1], [2], [3]⟩⟩

/-- Fixed code-to-label table of the main screen classifier (21 entries). -/
def weatherCodeMapping : List (ℤ × String) :=
  [(0, "Clear"), (1, "Mostly clear"), (2, "Partly cloudy"), (3, "Overcast"),
   (45, "Fog"), (48, "Depositing rime fog"),
   (51, "Light drizzle"), (53, "Drizzle"), (55, "Heavy drizzle"),
   (61, "Light rain"), (63, "Rain"), (65, "Heavy rain"),
   (71, "Light snow"), (73, "Snow"), (75, "Heavy snow"),
   (80, "Rain showers"), (81, "Heavy rain showers"), (82, "Violent rain showers"),
   (95, "Thunderstorm"), (96, "Thunderstorm w/ hail"), (99, "Thunderstorm w/ heavy hail")]

/-- Weather-code label classifier of the main screen and the services screen:
absent code yields the empty string, unmapped codes fall back to Unknown. -/
def formatWeatherCode : Option ℤ → String
  | none => ""
  | some code => (weatherCodeMapping.lookup code).getD "Unknown"

/-- Fixed code-to-label table of the themed screen variant (28 entries). -/
def weatherCodeMapping6 : List (ℤ × String) :=
  [(0, "Clear"), (1, "Mostly clear"), (2, "Partly cloudy"), (3, "Overcast"),
   (45, "Fog"), (48, "Depositing rime fog"),
   (51, "Light drizzle"), (53, "Drizzle"), (55, "Heavy drizzle"),
   (56, "Freezing drizzle"), (57, "Heavy freezing drizzle"),
   (61, "Light rain"), (63, "Rain"), (65, "Heavy rain"),
   (66, "Freezing rain"), (67, "Heavy freezing rain"),
   (71, "Light snow"), (73, "Snow"), (75, "Heavy snow"), (77, "Snow grains"),
   (80, "Light rain showers"), (81, "Rain showers"), (82, "Heavy rain showers"),
   (85, "Light snow showers"), (86, "Heavy snow showers"),
   (95, "Thunderstorm"), (96, "Thunderstorm + hail"), (99, "Thunderstorm + heavy hail")]

/-- Weather-code label classifier of the themed screen variant: absent code
and unmapped codes both yield Unknown. -/
def formatWeatherCode6 : Option ℤ → String
  | none => "Unknown"
  | some code => (weatherCodeMapping6.lookup code).getD "Unknown"

/-- Pictographic symbol classifier: absent code yields the question-mark
symbol, unmapped codes fall back to the generic thermometer symbol. -/
def weatherEmoji : Option ℤ → String
  | none => "❓"
  | some code =>
    if code = 0 then "☀️"
    else if code = 1 ∨ code = 2 then "🌤️"
    else if code = 3 then "☁️"
    else if code = 45 ∨ code = 48 then "🌫️"
    else if code ∈ [51, 53, 55] then "🌦️"
    else if code ∈ [61, 63, 65, 80, 81, 82] then "🌧️"
    else if code ∈ [71, 73, 75] then "❄️"
    else if code ∈ [95, 96, 99] then "⛈️"
    else "🌡️"

/-- The codes given a dedicated symbol by weatherEmoji. -/
def emojiHandledCodes : List ℤ :=
  [0, 1, 2, 3, 45, 48, 51, 53, 55, 61, 63, 65, 80, 81, 82, 71, 73, 75, 95, 96, 99]

/-- JavaScript Math.round: half-up rounding to the nearest integer. -/
def jsRound (x : ℚ) : ℤ := ⌊x + 1 / 2⌋

/-- JavaScript Number.toFixed with one fractional digit, for the nonnegative
values produced by the kilometer branch: the tenths value rounded half-up,
rendered as integer part, dot, tenths digit. -/
def toFixed1 (x : ℚ) : String :=
  toString (⌊x * 10 + 1 / 2⌋ / 10) ++ "." ++ toString (⌊x * 10 + 1 / 2⌋ % 10)

/-- Distance display formatter: absent distance gives the empty string,
distances under 1000 are rounded meters, others kilometers to one decimal. -/
def formatDistance : Option ℚ → String
  | none => ""
  | some distance =>
    if distance < 1000 then toString (jsRound distance) ++ " m"
    else toFixed1 (distance / 1000) ++ " km"

/-- Degree-to-radian conversion of the source distance calculator. -/
noncomputable def toRad (value : ℝ) : ℝ := value * Real.pi / 180

open Classical in
/-- JavaScript Math.atan2, the two-argument arctangent, by quadrant. -/
noncomputable def jsAtan2 (y x : ℝ) : ℝ :=
  if x > 0 then Real.arctan (y / x)
  else if x < 0 ∧ y ≥ 0 then Real.arctan (y / x) + Real.pi
  else if x < 0 ∧ y < 0 then Real.arctan (y / x) - Real.pi
  else if x = 0 ∧ y > 0 then Real.pi / 2
  else if x = 0 ∧ y < 0 then -(Real.pi / 2)
  else 0

/-- The haversine intermediate value a of the source. -/
noncomputable def havA (lat1 lon1 lat2 lon2 : ℝ) : ℝ :=
  Real.sin (toRad (lat2 - lat1) / 2) * Real.sin (toRad (lat2 - lat1) / 2) +
    Real.cos (toRad lat1) * Real.cos (toRad lat2) *
      Real.sin (toRad (lon2 - lon1) / 2) * Real.sin (toRad (lon2 - lon1) / 2)

/-- Great-circle distance in meters: haversine formula with Earth radius
6371000 and the arc angle recovered through the two-argument arctangent. -/
noncomputable def haversineMeters (lat1 lon1 lat2 lon2 : ℝ) : ℝ :=
  6371000 * (2 * jsAtan2 (Real.sqrt (havA lat1 lon1 lat2 lon2))
    (Real.sqrt (1 - havA lat1 lon1 lat2 lon2)))

/-- C1: for scenario B the four factor deductions 40, 50, 60, 70 drive the
running score from 100 to -120, the returned score is clamped to 0, the
suitability is dangerous, and exactly the four factor alerts appear in the
fixed order temperature, wind, precipitation, weather code. -/
theorem C1_scenarioB :
    (baseSteps scenarioB).score = 100 - 40 - 50 - 60 - 70
    ∧ (calculateRidingConditions scenarioB).score = 0
    ∧ (calculateRidingConditions scenarioB).suitability = Suitability.dangerous
    ∧ (calculateRidingConditions scenarioB).alerts =
        ["Very cold - risk of frostbite",
         "Very windy - dangerous riding conditions",
         "Heavy rain - extremely dangerous",
         "Thunderstorm - extremely dangerous"] := by
  decide

/-- Every factor step only deducts: temperature. -/
lemma tempStep_score_le (t : ℚ) (s : ScoreState) : (tempStep t s).score ≤ s.score := by
  unfold tempStep
  split_ifs <;> simp

/-- Every factor step only deducts: wind. -/
lemma windStep_score_le (w : ℚ) (s : ScoreState) : (windStep w s).score ≤ s.score := by
  unfold windStep
  split_ifs <;> simp

/-- Every factor step only deducts: precipitation. -/
lemma precipStep_score_le (p q : ℚ) (s : ScoreState) :
    (precipStep p q s).score ≤ s.score := by
  unfold precipStep
  split_ifs <;> simp

/-- Every factor step only deducts: weather code. -/
lemma codeStep_score_le (c : ℤ) (s : ScoreState) : (codeStep c s).score ≤ s.score := by
  unfold codeStep
  split_ifs <;> simp

/-- The lookahead step only deducts. -/
lemma lookaheadStep_score_le (o : Option HourlyForecast) (s : ScoreState) :
    (lookaheadStep o s).score ≤ s.score := by
  unfold lookaheadStep
  split
  · exact le_refl _
  · split
    · exact le_refl _
    · split_ifs <;> simp

/-- The state after the four factor steps has score at most 100. -/
lemma baseSteps_score_le (w : WeatherInfo) : (baseSteps w).score ≤ 100 := by
  unfold baseSteps
  calc (codeStep (w.weatherCode.getD 0)
          (precipStep (w.precipitation.getD 0) (w.precipitationProbability.getD 0)
            (windStep (w.windSpeed.getD 0)
              (tempStep (w.temperatureC.getD 20) ⟨100, [], []⟩)))).score
      ≤ (precipStep (w.precipitation.getD 0) (w.precipitationProbability.getD 0)
          (windStep (w.windSpeed.getD 0)
            (tempStep (w.temperatureC.getD 20) ⟨100, [], []⟩))).score :=
        codeStep_score_le _ _
    _ ≤ (windStep (w.windSpeed.getD 0)
          (tempStep (w.temperatureC.getD 20) ⟨100, [], []⟩)).score :=
        precipStep_score_le _ _ _
    _ ≤ (tempStep (w.temperatureC.getD 20) ⟨100, [], []⟩).score :=
        windStep_score_le _ _
    _ ≤ (⟨100, [], []⟩ : ScoreState).score := tempStep_score_le _ _
    _ ≤ 100 := le_refl _

/-- C2: for every WeatherInfo value the returned score lies in [0, 100]. -/
theorem C2_score_bounds (w : WeatherInfo) :
    0 ≤ (calculateRidingConditions w).score
    ∧ (calculateRidingConditions w).score ≤ 100 := by
  unfold calculateRidingConditions
  refine ⟨le_max_left 0 _, ?_⟩
  have h1 := lookaheadStep_score_le w.hourlyForecast (baseSteps w)
  have h2 := baseSteps_score_le w
  simp only [max_le_iff]
  omega

/-- The value of suitabilityFromScore agrees before and after the clamp of a
negative score to 0, since both sides fall below every threshold. -/
lemma suitabilityFromScore_clamp (n : ℤ) :
    suitabilityFromScore (max 0 n) = suitabilityFromScore n := by
  rcases le_or_lt 0 n with h | h
  · rw [max_eq_right h]
  · rw [max_eq_left h.le]
    unfold suitabilityFromScore
    split_ifs <;> first | rfl | omega

/-- C3: for every WeatherInfo value, the suitability the scorer returns is
exactly the fixed highest-first thresholding (80, 60, 40, 20, with boundary
values in the higher band) of the score it returns; the assignment from the
pre-clamp score agrees with the thresholding of the clamped score. -/
theorem C3_suitability_consistent (w : WeatherInfo) :
    (calculateRidingConditions w).suitability =
      suitabilityFromScore (calculateRidingConditions w).score := by
  unfold calculateRidingConditions
  exact (suitabilityFromScore_clamp _).symm

/-- Each factor step preserves equality of alert and recommendation counts:
temperature. -/
lemma tempStep_lengths (t : ℚ) (s : ScoreState)
    (h : s.alerts.length = s.recommendations.length) :
    (tempStep t s).alerts.length = (tempStep t s).recommendations.length := by
  unfold tempStep
  split_ifs <;> simp [h]

/-- Each factor step preserves equality of alert and recommendation counts:
wind. -/
lemma windStep_lengths (w : ℚ) (s : ScoreState)
    (h : s.alerts.length = s.recommendations.length) :
    (windStep w s).alerts.length = (windStep w s).recommendations.length := by
  unfold windStep
  split_ifs <;> simp [h]

/-- Each factor step preserves equality of alert and recommendation counts:
precipitation. -/
lemma precipStep_lengths (p q : ℚ) (s : ScoreState)
    (h : s.alerts.length = s.recommendations.length) :
    (precipStep p q s).alerts.length = (precipStep p q s).recommendations.length := by
  unfold precipStep
  split_ifs <;> simp [h]

/-- Each factor step preserves equality of alert and recommendation counts:
weather code. -/
lemma codeStep_lengths (c : ℤ) (s : ScoreState)
    (h : s.alerts.length = s.recommendations.length) :
    (codeStep c s).alerts.length = (codeStep c s).recommendations.length := by
  unfold codeStep
  split_ifs <;> simp [h]

/-- The lookahead step preserves equality of alert and recommendation
counts. -/
lemma lookaheadStep_lengths (o : Option HourlyForecast) (s : ScoreState)
    (h : s.alerts.length = s.recommendations.length) :
    (lookaheadStep o s).alerts.length = (lookaheadStep o s).recommendations.length := by
  unfold lookaheadStep
  split
  · exact h
  · split
    · exact h
    · split_ifs <;> simp [h]

/-- C9: for every WeatherInfo value, the alerts and recommendations the
scorer returns have equal length (every branch that appends an alert appends
exactly one paired recommendation). -/
theorem C9_alerts_recommendations_paired (w : WeatherInfo) :
    (calculateRidingConditions w).alerts.length =
      (calculateRidingConditions w).recommendations.length := by
  unfold calculateRidingConditions
  exact lookaheadStep_lengths _ _ (codeStep_lengths _ _ (precipStep_lengths _ _ _
    (windStep_lengths _ _ (tempStep_lengths _ _ rfl))))

/-- If the lookahead condition fires, the step deducts exactly 25 more points
and appends its alert and recommendation. -/
lemma lookaheadStep_fires (hf : HourlyForecast) (s : ScoreState)
    (h : lookaheadFires hf = true) :
    lookaheadStep (some hf) s =
      ⟨s.score - 25, s.alerts ++ ["Rain likely in next few hours"],
        s.recommendations ++ ["Plan route to avoid bad weather"]⟩ := by
  unfold lookaheadFires at h
  unfold lookaheadStep
  rcases hm : jsMax (hf.precipitationProbability.take 6) with _ | m
  · rw [hm] at h
    simp at h
  · rw [hm] at h
    simp only [decide_eq_true_eq] at h
    simp [hm, h]

/-- If the lookahead condition does not fire, the step changes nothing. -/
lemma lookaheadStep_noFire (hf : HourlyForecast) (s : ScoreState)
    (h : lookaheadFires hf = false) :
    lookaheadStep (some hf) s = s := by
  unfold lookaheadFires at h
  unfold lookaheadStep
  rcases hm : jsMax (hf.precipitationProbability.take 6) with _ | m
  · simp [hm]
  · rw [hm] at h
    simp only [decide_eq_false_iff_not] at h
    simp [hm, h]

/-- C4: for every reading with an hourly forecast, when the maximum of the
first 6 hourly precipitation probabilities exceeds 70 the scorer deducts 25
points on top of whatever the four factor steps deducted and appends the
lookahead alert and recommendation, and otherwise the lookahead changes
nothing; in particular, scenario D yields score 75, suitability good, and the
single lookahead alert. -/
theorem C4_lookahead_additive :
    (∀ (w : WeatherInfo) (hf : HourlyForecast), w.hourlyForecast = some hf →
      (lookaheadFires hf = true →
        calculateRidingConditions w =
          ⟨max 0 ((baseSteps w).score - 25),
            suitabilityFromScore ((baseSteps w).score - 25),
            (baseSteps w).alerts ++ ["Rain likely in next few hours"],
            (baseSteps w).recommendations ++ ["Plan route to avoid bad weather"]⟩)
      ∧ (lookaheadFires hf = false →
        calculateRidingConditions w =
          ⟨max 0 (baseSteps w).score, suitabilityFromScore (baseSteps w).score,
            (baseSteps w).alerts, (baseSteps w).recommendations⟩))
    ∧ ((calculateRidingConditions scenarioD).score = 75
      ∧ (calculateRidingConditions scenarioD).suitability = Suitability.good
      ∧ (calculateRidingConditions scenarioD).alerts = ["Rain likely in next few hours"]) := by
  constructor
  · intro w hf hw
    constructor
    · intro hfire
      unfold calculateRidingConditions
      rw [hw, lookaheadStep_fires hf _ hfire]
    · intro hno
      unfold calculateRidingConditions
      rw [hw, lookaheadStep_noFire hf _ hno]
  · exact ⟨by decide, by decide, by decide⟩

/-- C4 witness: the general lookahead statement applied to scenario D. -/
theorem C4_lookahead_additive_witness :
    calculateRidingConditions scenarioD =
      ⟨max 0 ((baseSteps scenarioD).score - 25),
        suitabilityFromScore ((baseSteps scenarioD).score - 25),
        (baseSteps scenarioD).alerts ++ ["Rain likely in next few hours"],
        (baseSteps scenarioD).recommendations ++ ["Plan route to avoid bad weather"]⟩ :=
  (C4_lookahead_additive.1 scenarioD scenarioDHourly rfl).1 (by decide)

/-- Closed form of the score as a function of wind speed alone. -/
lemma windOnly_score (w : ℚ) :
    (calculateRidingConditions (windOnly w)).score =
      if w > 15 then 50 else if w > 10 then 70 else if w > 5 then 90 else 100 := by
  unfold calculateRidingConditions baseSteps windOnly lookaheadStep tempStep precipStep codeStep
  norm_num
  unfold windStep
  split_ifs <;> rfl

/-- C5: with every other field at its neutral default, the returned score is
a non-increasing function of wind speed, and crossing each of the thresholds
5, 10, 15 strictly decreases it. -/
theorem C5_wind_monotonicity :
    (∀ w1 w2 : ℚ, w1 ≤ w2 →
      (calculateRidingConditions (windOnly w2)).score
        ≤ (calculateRidingConditions (windOnly w1)).score)
    ∧ (∀ w1 w2 : ℚ, w1 ≤ 5 → 5 < w2 →
      (calculateRidingConditions (windOnly w2)).score
        < (calculateRidingConditions (windOnly w1)).score)
    ∧ (∀ w1 w2 : ℚ, w1 ≤ 10 → 10 < w2 →
      (calculateRidingConditions (windOnly w2)).score
        < (calculateRidingConditions (windOnly w1)).score)
    ∧ (∀ w1 w2 : ℚ, w1 ≤ 15 → 15 < w2 →
      (calculateRidingConditions (windOnly w2)).score
        < (calculateRidingConditions (windOnly w1)).score) := by
  refine ⟨?_, ?_, ?_, ?_⟩
  · intro w1 w2 h
    rw [windOnly_score, windOnly_score]
    split_ifs <;> first | (exfalso; linarith) | norm_num
  · intro w1 w2 h1 h2
    rw [windOnly_score, windOnly_score]
    split_ifs <;> first | (exfalso; linarith) | norm_num
  · intro w1 w2 h1 h2
    rw [windOnly_score, windOnly_score]
    split_ifs <;> first | (exfalso; linarith) | norm_num
  · intro w1 w2 h1 h2
    rw [windOnly_score, windOnly_score]
    split_ifs <;> first | (exfalso; linarith) | norm_num

/-- C5 witness: the chained statement applied at concrete wind speeds 4 and
16, with each threshold crossing checked on concrete pairs. -/
theorem C5_wind_monotonicity_witness :
    (calculateRidingConditions (windOnly 16)).score
      ≤ (calculateRidingConditions (windOnly 4)).score
    ∧ (calculateRidingConditions (windOnly 6)).score
      < (calculateRidingConditions (windOnly 4)).score
    ∧ (calculateRidingConditions (windOnly 11)).score
      < (calculateRidingConditions (windOnly 9)).score
    ∧ (calculateRidingConditions (windOnly 16)).score
      < (calculateRidingConditions (windOnly 14)).score :=
  ⟨C5_wind_monotonicity.1 4 16 (by norm_num),
    C5_wind_monotonicity.2.1 4 6 (by norm_num) (by norm_num),
    C5_wind_monotonicity.2.2.1 9 11 (by norm_num) (by norm_num),
    C5_wind_monotonicity.2.2.2 14 16 (by norm_num) (by norm_num)⟩

/-- The lookahead step depends on its hourly argument only through presence
and the first 6 precipitation-probability entries. -/
lemma lookaheadStep_proj_congr (o1 o2 : Option HourlyForecast) (s : ScoreState)
    (h : o1.map (fun hf => hf.precipitationProbability.take 6)
       = o2.map (fun hf => hf.precipitationProbability.take 6)) :
    lookaheadStep o1 s = lookaheadStep o2 s := by
  rcases o1 with _ | h1 <;> rcases o2 with _ | h2
  · rfl
  · simp at h
  · simp at h
  · simp only [Option.map_some', Option.some.injEq] at h
    have hfire : lookaheadFires h1 = lookaheadFires h2 := by
      unfold lookaheadFires
      rw [h]
    cases hb : lookaheadFires h1 with
    | false =>
      rw [lookaheadStep_noFire h1 s hb, lookaheadStep_noFire h2 s (hfire.symm.trans hb)]
    | true =>
      rw [lookaheadStep_fires h1 s hb, lookaheadStep_fires h2 s (hfire.symm.trans hb)]

/-- C10: the scorer reads only temperature, wind, current precipitation,
precipitation probability, weather code, and the first 6 entries of the
hourly precipitation-probability sequence; two readings that agree on those
(including presence of the hourly forecast) yield identical results, however
they differ in the daily forecast, the other hourly sequences, or hourly
precipitation-probability entries from offset 6 on. -/
theorem C10_reads_only_scoring_inputs (w1 w2 : WeatherInfo)
    (ht : w1.temperatureC = w2.temperatureC)
    (hw : w1.windSpeed = w2.windSpeed)
    (hp : w1.precipitation = w2.precipitation)
    (hq : w1.precipitationProbability = w2.precipitationProbability)
    (hc : w1.weatherCode = w2.weatherCode)
    (hh : w1.hourlyForecast.map (fun hf => hf.precipitationProbability.take 6)
        = w2.hourlyForecast.map (fun hf => hf.precipitationProbability.take 6)) :
    calculateRidingConditions w1 = calculateRidingConditions w2 := by
  have hbase : baseSteps w1 = baseSteps w2 := by
    unfold baseSteps
    rw [ht, hw, hp, hq, hc]
  unfold calculateRidingConditions
  rw [hbase, lookaheadStep_proj_congr _ _ _ hh]

/-- C10 witness: the non-interference statement applied to the two concrete
probe readings. -/
theorem C10_reads_only_scoring_inputs_witness :
    calculateRidingConditions probeReadingLeft = calculateRidingConditions probeReadingRight :=
  C10_reads_only_scoring_inputs probeReadingLeft probeReadingRight
    rfl rfl rfl rfl rfl (by decide)

/-- C6 counterexample: the main screen label classifier maps an absent code
to the empty string, not to Unknown. -/
theorem C6_absent_code_counterexample : ¬ (formatWeatherCode none = "Unknown") := by
  decide

/-- C6 amended: the themed-variant label classifier maps an absent code to
Unknown while the main screen and services screen classifier maps it to the
empty string (the symbol classifier yields its generic unknown symbol); every
integer code outside the fixed lookup tables falls back to Unknown (and to
the generic symbol), not to an error. -/
theorem C6_unknown_fallback :
    formatWeatherCode none = ""
    ∧ formatWeatherCode6 none = "Unknown"
    ∧ weatherEmoji none = "❓"
    ∧ (∀ c : ℤ, weatherCodeMapping.lookup c = none →
        formatWeatherCode (some c) = "Unknown")
    ∧ (∀ c : ℤ, weatherCodeMapping6.lookup c = none →
        formatWeatherCode6 (some c) = "Unknown")
    ∧ (∀ c : ℤ, c ∉ emojiHandledCodes → weatherEmoji (some c) = "🌡️") := by
  refine ⟨rfl, rfl, rfl, ?_, ?_, ?_⟩
  · intro c h
    simp only [formatWeatherCode]
    rw [h]
    rfl
  · intro c h
    simp only [formatWeatherCode6]
    rw [h]
    rfl
  · intro c h
    simp only [emojiHandledCodes, List.mem_cons, List.not_mem_nil, or_false] at h
    push_neg at h
    simp only [weatherEmoji]
    split_ifs <;> simp_all

/-- C6 witness: the amended fallback statement applied at the concrete
unmapped code 42. -/
theorem C6_unknown_fallback_witness :
    formatWeatherCode (some 42) = "Unknown"
    ∧ formatWeatherCode6 (some 42) = "Unknown"
    ∧ weatherEmoji (some 42) = "🌡️" :=
  ⟨C6_unknown_fallback.2.2.2.1 42 (by decide),
   C6_unknown_fallback.2.2.2.2.1 42 (by decide),
   C6_unknown_fallback.2.2.2.2.2 42 (by decide)⟩

/-- C8: the distance formatter returns the empty string for an absent
distance; for a distance under 1000 the integer of meters nearest to it
(half-up, within one half meter) suffixed with the meter unit; and otherwise
the tenths-of-kilometer integer nearest to ten times the kilometer value
rendered with one decimal place and suffixed with the kilometer unit. -/
theorem C8_format_distance :
    formatDistance none = ""
    ∧ (∀ d : ℚ, d < 1000 →
        ∃ n : ℤ, |(n : ℚ) - d| ≤ 1 / 2
          ∧ formatDistance (some d) = toString n ++ " m")
    ∧ (∀ d : ℚ, ¬ d < 1000 →
        ∃ t : ℤ, |(t : ℚ) - 10 * (d / 1000)| ≤ 1 / 2
          ∧ formatDistance (some d) =
              toString (t / 10) ++ "." ++ toString (t % 10) ++ " km") := by
  refine ⟨rfl, ?_, ?_⟩
  · intro d hd
    refine ⟨jsRound d, ?_, ?_⟩
    · unfold jsRound
      have h1 := Int.floor_le (d + 1 / 2)
      have h2 := Int.lt_floor_add_one (d + 1 / 2)
      rw [abs_le]
      constructor <;> push_cast at h1 h2 ⊢ <;> linarith
    · simp only [formatDistance]
      rw [if_pos hd]
  · intro d hd
    refine ⟨⌊d / 1000 * 10 + 1 / 2⌋, ?_, ?_⟩
    · have h1 := Int.floor_le (d / 1000 * 10 + 1 / 2)
      have h2 := Int.lt_floor_add_one (d / 1000 * 10 + 1 / 2)
      rw [abs_le]
      constructor <;> push_cast at h1 h2 ⊢ <;> linarith
    · simp only [formatDistance]
      rw [if_neg hd]
      rfl

/-- C8 witness: the formatter statement applied at concrete distances 523
meters and 1250 meters. -/
theorem C8_format_distance_witness :
    formatDistance none = ""
    ∧ (∃ n : ℤ, |(n : ℚ) - 523| ≤ 1 / 2
        ∧ formatDistance (some 523) = toString n ++ " m")
    ∧ (∃ t : ℤ, |(t : ℚ) - 10 * (1250 / 1000)| ≤ 1 / 2
        ∧ formatDistance (some 1250) =
            toString (t / 10) ++ "." ++ toString (t % 10) ++ " km") :=
  ⟨C8_format_distance.1,
   C8_format_distance.2.1 523 (by norm_num),
   C8_format_distance.2.2 1250 (by norm_num)⟩

/-- The haversine intermediate value is symmetric in the two points. -/
lemma havA_symm (lat1 lon1 lat2 lon2 : ℝ) :
    havA lat2 lon2 lat1 lon1 = havA lat1 lon1 lat2 lon2 := by
  unfold havA toRad
  have hlat : (lat1 - lat2) * Real.pi / 180 / 2 = -((lat2 - lat1) * Real.pi / 180 / 2) := by
    ring
  have hlon : (lon1 - lon2) * Real.pi / 180 / 2 = -((lon2 - lon1) * Real.pi / 180 / 2) := by
    ring
  rw [hlat, hlon, Real.sin_neg, Real.sin_neg]
  ring

/-- C7: the geodesic distance function is symmetric in its two coordinate
pairs. -/
theorem C7_distance_symmetry (lat1 lon1 lat2 lon2 : ℝ) :
    haversineMeters lat1 lon1 lat2 lon2 = haversineMeters lat2 lon2 lat1 lon1 := by
  unfold haversineMeters
  rw [havA_symm]
